import Mathlib

/-!
# Verification of the mention-triage pipeline of `twitter-reply-bot.py`

Shallow embedding of the `TwitterBot` class and its scheduling entry point
(`job`) from `src/twitter-reply-bot.py`.  External collaborators (the tweepy
client, the Airtable store, the Gemini language model, the wall clock) are
modelled as an `Env` record of response functions; Python exceptions are
modelled with `Except PyExc`, and since Python instance-field mutations
performed before a `raise` persist, every fallible operation returns the
bot state it produced so far *together with* its `Except` outcome.

The Airtable table is the only persistent state; it is threaded through
`BotState.store`.  Ghost counters `store_reads`, `llm_calls` and the list
`posts` record the observable effects on the collaborators (a full-table
scan per dedup check, a language-model invocation, a posted tweet), so that
frame claims ("the store is not accessed", "no reply is posted") are
expressible.
-/

/-- A Python exception, identified by its class/message. -/
abbrev PyExc := String

/-- A mention as returned by `get_users_mentions` with
`tweet_fields=["created_at", "conversation_id"]`: the fields the pipeline
reads are `id`, `conversation_id` (possibly absent) and `created_at`. -/
structure Mention where
  id : Nat
  conversation_id : Option Nat
  created_at : Nat
deriving DecidableEq, Repr

/-- A tweet as returned by `get_tweet(...).data`: the pipeline reads its
`id` and `text`. -/
structure Tweet where
  id : Nat
  text : String
deriving DecidableEq, Repr

/-- One Airtable row, with exactly the fields written by
`respond_to_mention` (lines 102-109 of the source).  The conversation
tweet id is stored as a string, `str(mentioned_conversation_tweet.id)`. -/
structure ReplyRecord where
  mentioned_conversation_tweet_id : String
  mentioned_conversation_tweet_text : String
  tweet_response_id : Nat
  tweet_response_text : String
  tweet_response_created_at : Nat
  mentioned_at : Nat
deriving DecidableEq, Repr

/-- The mutable state a running `TwitterBot` instance sees: the persistent
Airtable table (`store`), the per-instance configuration
`tweet_response_limit`, the three counter fields, and ghost effect
trackers (`store_reads` = number of `airtable.get_all` scans, `llm_calls`
= number of language-model invocations, `posts` = tweets actually created,
as (text, in_reply_to_tweet_id) pairs). -/
structure BotState where
  store : List ReplyRecord
  tweet_response_limit : Nat
  mentions_found : Nat
  mentions_replied : Nat
  mentions_replied_errors : Nat
  store_reads : Nat
  llm_calls : Nat
  posts : List (String × Nat)
deriving DecidableEq, Repr

/-- The external collaborators' behaviour during one run: the mentions the
social client returns, tweet lookup (`get_tweet(...).data`, which can be
absent), the language model (which can raise), tweet creation (which can
raise; on success returns the new tweet's id), whether `airtable.insert`
succeeds, and the wall clock used for `datetime.utcnow()`. -/
structure Env where
  mentions : List Mention
  getTweet : Nat → Option Tweet
  llm : String → Except PyExc String
  create_tweet : String → Nat → Except PyExc Nat
  insert_ok : Bool
  now : Nat

/-- `TwitterBot.__init__`: the counter fields start at zero and
`tweet_response_limit` is 35; the Airtable table is whatever it already
contains.  Ghost effect trackers start empty. -/
def TwitterBot.init (store : List ReplyRecord) : BotState :=
  { store := store
    tweet_response_limit := 35
    mentions_found := 0
    mentions_replied := 0
    mentions_replied_errors := 0
    store_reads := 0
    llm_calls := 0
    posts := [] }

/-- `generate_response`: builds the fixed persona prompt around the source
text and invokes the language model; the model's answer is returned
unmodified and a model failure propagates.  The `llm_calls` ghost counter
records the invocation. -/
def generate_response (env : Env) (st : BotState) (text : String) :
    BotState × Except PyExc String :=
  let st1 := { st with llm_calls := st.llm_calls + 1 }
  match env.llm text with
  | Except.ok r => (st1, Except.ok r)
  | Except.error e => (st1, Except.error e)

/-- The scan loop body of `check_already_responded` (lines 138-142): does
any row of the table hold `str(cid)` in its id field? -/
def hasRecord (store : List ReplyRecord) (cid : Nat) : Bool :=
  store.any fun r => r.mentioned_conversation_tweet_id == toString cid

/-- `check_already_responded`: one full `airtable.get_all` scan (counted in
`store_reads`) testing `record["fields"]["mentioned_conversation_tweet_id"]
== str(mentioned_conversation_tweet_id)` on every row. -/
def check_already_responded (st : BotState) (cid : Nat) : BotState × Bool :=
  ({ st with store_reads := st.store_reads + 1 }, hasRecord st.store cid)

/-- The Airtable row inserted on a successful reply (lines 102-109). -/
def newRecord (env : Env) (mention : Mention) (conv : Tweet)
    (response_text : String) (response_id : Nat) : ReplyRecord :=
  { mentioned_conversation_tweet_id := toString conv.id
    mentioned_conversation_tweet_text := conv.text
    tweet_response_id := response_id
    tweet_response_text := response_text
    tweet_response_created_at := env.now
    mentioned_at := mention.created_at }

/-- `respond_to_mention` (lines 86-110): generate a reply (a model failure
propagates, it is outside the `try`), then `try` to post it; on a posting
failure increment `mentions_replied_errors` and return (`Option.none`, the
implicit Python `None`); on success increment `mentions_replied`, then —
after and outside the `try` — insert the Airtable row (an insert failure
propagates) and return `True`. -/
def respond_to_mention (env : Env) (st : BotState) (mention : Mention)
    (conv : Tweet) : BotState × Except PyExc (Option Bool) :=
  match generate_response env st conv.text with
  | (st1, Except.error e) => (st1, Except.error e)
  | (st1, Except.ok response_text) =>
    match env.create_tweet response_text mention.id with
    | Except.error _ =>
        ({ st1 with mentions_replied_errors := st1.mentions_replied_errors + 1 },
         Except.ok none)
    | Except.ok response_id =>
        let st2 := { st1 with
          mentions_replied := st1.mentions_replied + 1
          posts := st1.posts ++ [(response_text, mention.id)] }
        if env.insert_ok then
          ({ st2 with
              store := st2.store ++ [newRecord env mention conv response_text response_id] },
           Except.ok (some true))
        else
          (st2, Except.error "AirtableInsertError")

/-- `get_mention_conversation_tweet` (lines 116-121): if the mention has a
`conversation_id`, fetch that tweet (`get_tweet(...).data`, which may be
absent); otherwise return `None`. -/
def get_mention_conversation_tweet (env : Env) (mention : Mention) : Option Tweet :=
  match mention.conversation_id with
  | some cid => env.getTweet cid
  | none => none

/-- The `for mention in mentions[:limit]` loop body of
`respond_to_mentions` (lines 154-159).  For each mention: resolve its
conversation tweet; the source then evaluates
`mentioned_conversation_tweet.id` unconditionally, so a `None` resolution
raises `AttributeError`; Python's `and` short-circuits, so
`check_already_responded` runs only when `conv.id != mention.id`; a
propagating exception from `respond_to_mention` aborts the loop. -/
def process_mentions (env : Env) : BotState → List Mention → BotState × Except PyExc Unit
  | st, [] => (st, Except.ok ())
  | st, mention :: rest =>
    match get_mention_conversation_tweet env mention with
    | none => (st, Except.error "AttributeError")
    | some conv =>
      if conv.id ≠ mention.id then
        match check_already_responded st conv.id with
        | (st1, true) => process_mentions env st1 rest
        | (st1, false) =>
          match respond_to_mention env st1 mention conv with
          | (st2, Except.error e) => (st2, Except.error e)
          | (st2, Except.ok _) => process_mentions env st2 rest
      else
        process_mentions env st rest

/-- `respond_to_mentions` (lines 144-160): fetch mentions; if none, return
`None` immediately; otherwise set `mentions_found` to the full fetched
count, then run the loop over the first `tweet_response_limit` mentions in
fetched order, and return `True`. -/
def respond_to_mentions (env : Env) (st : BotState) :
    BotState × Except PyExc (Option Bool) :=
  let mentions := env.mentions
  if mentions.isEmpty then
    (st, Except.ok none)
  else
    let st0 := { st with mentions_found := mentions.length }
    match process_mentions env st0 (mentions.take st0.tweet_response_limit) with
    | (st1, Except.error e) => (st1, Except.error e)
    | (st1, Except.ok ()) => (st1, Except.ok (some true))

/-- `execute_replies` (lines 162-166): logging aside, it runs
`respond_to_mentions`. -/
def execute_replies (env : Env) (st : BotState) :
    BotState × Except PyExc (Option Bool) :=
  respond_to_mentions env st

/-- `job` (lines 169-172): each scheduled job constructs a fresh
`TwitterBot` — only the external Airtable table carries over from whatever
instance existed before — and calls `execute_replies` on it. -/
def job (prev : BotState) (env : Env) : BotState × Except PyExc (Option Bool) :=
  execute_replies env (TwitterBot.init prev.store)

/-- Number of rows of the table whose stored conversation-tweet id equals
the string `s`. -/
def countRecords (store : List ReplyRecord) (s : String) : Nat :=
  store.countP fun r => r.mentioned_conversation_tweet_id == s

/-- The spec's §3 invariant: for a given `mentioned_conversation_tweet_id`,
at most one ReplyRecord exists. -/
def AtMostOnePerId (store : List ReplyRecord) : Prop :=
  ∀ s : String, countRecords store s ≤ 1

/-! ## Helper lemmas -/

/-- Case analysis on `respond_to_mention`: a model failure propagates the
state with only `llm_calls` bumped; a posting failure bumps
`mentions_replied_errors`; a posting success bumps `mentions_replied` and
records the post, then either appends the Airtable row and returns `True`
or propagates the insert failure with the row *not* appended. -/
theorem respond_to_mention_shape (env : Env) (st : BotState) (m : Mention)
    (conv : Tweet) :
    (∃ e, env.llm conv.text = Except.error e ∧
      respond_to_mention env st m conv =
        ({ st with llm_calls := st.llm_calls + 1 }, Except.error e)) ∨
    (∃ t e, env.llm conv.text = Except.ok t ∧
      env.create_tweet t m.id = Except.error e ∧
      respond_to_mention env st m conv =
        ({ st with
            llm_calls := st.llm_calls + 1
            mentions_replied_errors := st.mentions_replied_errors + 1 },
         Except.ok none)) ∨
    (∃ t rid, env.llm conv.text = Except.ok t ∧
      env.create_tweet t m.id = Except.ok rid ∧ env.insert_ok = false ∧
      respond_to_mention env st m conv =
        ({ st with
            llm_calls := st.llm_calls + 1
            mentions_replied := st.mentions_replied + 1
            posts := st.posts ++ [(t, m.id)] },
         Except.error "AirtableInsertError")) ∨
    (∃ t rid, env.llm conv.text = Except.ok t ∧
      env.create_tweet t m.id = Except.ok rid ∧ env.insert_ok = true ∧
      respond_to_mention env st m conv =
        ({ st with
            llm_calls := st.llm_calls + 1
            mentions_replied := st.mentions_replied + 1
            posts := st.posts ++ [(t, m.id)]
            store := st.store ++ [newRecord env m conv t rid] },
         Except.ok (some true))) := by
  unfold respond_to_mention generate_response
  cases hllm : env.llm conv.text with
  | error e => exact Or.inl ⟨e, rfl, rfl⟩
  | ok t =>
    cases hct : env.create_tweet t m.id with
    | error e => exact Or.inr (Or.inl ⟨t, e, rfl, hct, by simp [hct]⟩)
    | ok rid =>
      cases hins : env.insert_ok with
      | false => exact Or.inr (Or.inr (Or.inl ⟨t, rid, rfl, hct, rfl, by simp [hct]⟩))
      | true => exact Or.inr (Or.inr (Or.inr ⟨t, rid, rfl, hct, rfl, by simp [hct]⟩))

/-- `respond_to_mention` never touches `mentions_found`,
`tweet_response_limit` or `store_reads`, and it can only increase the
`mentions_replied` and `mentions_replied_errors` counters. -/
theorem respond_to_mention_frame (env : Env) (st : BotState) (m : Mention)
    (conv : Tweet) :
    (respond_to_mention env st m conv).1.mentions_found = st.mentions_found ∧
    (respond_to_mention env st m conv).1.tweet_response_limit = st.tweet_response_limit ∧
    (respond_to_mention env st m conv).1.store_reads = st.store_reads ∧
    st.mentions_replied ≤ (respond_to_mention env st m conv).1.mentions_replied ∧
    st.mentions_replied_errors ≤ (respond_to_mention env st m conv).1.mentions_replied_errors := by
  rcases respond_to_mention_shape env st m conv with
    ⟨e, _, h⟩ | ⟨t, e, _, _, h⟩ | ⟨t, rid, _, _, _, h⟩ | ⟨t, rid, _, _, _, h⟩ <;>
    rw [h] <;> exact ⟨rfl, rfl, rfl, by simp, by simp⟩

/-- `respond_to_mention` either leaves the Airtable table unchanged or
appends exactly one row, keyed by the conversation tweet's id. -/
theorem respond_to_mention_store_cases (env : Env) (st : BotState) (m : Mention)
    (conv : Tweet) :
    (respond_to_mention env st m conv).1.store = st.store ∨
    ∃ rec : ReplyRecord, rec.mentioned_conversation_tweet_id = toString conv.id ∧
      (respond_to_mention env st m conv).1.store = st.store ++ [rec] := by
  rcases respond_to_mention_shape env st m conv with
    ⟨e, _, h⟩ | ⟨t, e, _, _, h⟩ | ⟨t, rid, _, _, _, h⟩ | ⟨t, rid, _, _, _, h⟩
  · exact Or.inl (by rw [h])
  · exact Or.inl (by rw [h])
  · exact Or.inl (by rw [h])
  · exact Or.inr ⟨newRecord env m conv t rid, rfl, by rw [h]⟩

theorem countRecords_append (l₁ l₂ : List ReplyRecord) (s : String) :
    countRecords (l₁ ++ l₂) s = countRecords l₁ s + countRecords l₂ s := by
  unfold countRecords
  exact List.countP_append _ _ _

/-- A negative dedup scan means the table holds no row for that id. -/
theorem hasRecord_false_count (store : List ReplyRecord) (cid : Nat)
    (h : hasRecord store cid = false) :
    countRecords store (toString cid) = 0 := by
  unfold hasRecord at h
  unfold countRecords
  rw [List.countP_eq_zero]
  intro r hr
  have h2 := List.any_eq_false.mp h r hr
  simpa using h2

/-- Appending a row for an id the table does not yet hold preserves the
at-most-one-row-per-id invariant. -/
theorem atMostOne_append (store : List ReplyRecord) (rec : ReplyRecord)
    (h : AtMostOnePerId store)
    (h0 : countRecords store rec.mentioned_conversation_tweet_id = 0) :
    AtMostOnePerId (store ++ [rec]) := by
  intro s
  rw [countRecords_append]
  by_cases hs : rec.mentioned_conversation_tweet_id = s
  · subst hs
    rw [h0]
    unfold countRecords
    simp
  · have h1 : countRecords [rec] s = 0 := by
      unfold countRecords
      simp [hs]
    rw [h1]
    simpa using h s

/-- The per-mention loop never touches `mentions_found` or
`tweet_response_limit`, and the `mentions_replied` /
`mentions_replied_errors` counters only grow: the source never resets
them. -/
theorem process_mentions_effects (env : Env) :
    ∀ (ms : List Mention) (st : BotState),
      (process_mentions env st ms).1.mentions_found = st.mentions_found ∧
      (process_mentions env st ms).1.tweet_response_limit = st.tweet_response_limit ∧
      st.mentions_replied ≤ (process_mentions env st ms).1.mentions_replied ∧
      st.mentions_replied_errors ≤ (process_mentions env st ms).1.mentions_replied_errors := by
  intro ms
  induction ms with
  | nil => exact fun st => ⟨rfl, rfl, le_refl _, le_refl _⟩
  | cons m rest ih =>
    intro st
    unfold process_mentions
    cases hres : get_mention_conversation_tweet env m with
    | none => exact ⟨rfl, rfl, le_refl _, le_refl _⟩
    | some conv =>
      dsimp only
      by_cases hid : conv.id ≠ m.id
      · rw [if_pos hid]
        simp only [check_already_responded]
        cases hrec : hasRecord st.store conv.id with
        | true => exact ih { st with store_reads := st.store_reads + 1 }
        | false =>
          dsimp only
          rcases hcall : respond_to_mention env
              { st with store_reads := st.store_reads + 1 } m conv with ⟨st2, r⟩
          have hframe := respond_to_mention_frame env
              { st with store_reads := st.store_reads + 1 } m conv
          rw [hcall] at hframe
          obtain ⟨hf1, hf2, _, hf4, hf5⟩ := hframe
          cases r with
          | error e => exact ⟨hf1, hf2, hf4, hf5⟩
          | ok v =>
            obtain ⟨h1, h2, h3, h4⟩ := ih st2
            exact ⟨h1.trans hf1, h2.trans hf2, le_trans hf4 h3, le_trans hf5 h4⟩
      · rw [if_neg hid]
        exact ih st

/-- The per-mention loop preserves the at-most-one-row-per-id invariant:
a row is only ever appended for a conversation id whose dedup scan just
came back negative. -/
theorem process_mentions_preserves_atMostOne (env : Env) :
    ∀ (ms : List Mention) (st : BotState),
      AtMostOnePerId st.store →
      AtMostOnePerId (process_mentions env st ms).1.store := by
  intro ms
  induction ms with
  | nil => exact fun st h => h
  | cons m rest ih =>
    intro st h
    unfold process_mentions
    cases hres : get_mention_conversation_tweet env m with
    | none => exact h
    | some conv =>
      dsimp only
      by_cases hid : conv.id ≠ m.id
      · rw [if_pos hid]
        simp only [check_already_responded]
        cases hrec : hasRecord st.store conv.id with
        | true => exact ih { st with store_reads := st.store_reads + 1 } h
        | false =>
          dsimp only
          have hcnt : countRecords st.store (toString conv.id) = 0 :=
            hasRecord_false_count st.store conv.id hrec
          have hsc := respond_to_mention_store_cases env
              { st with store_reads := st.store_reads + 1 } m conv
          have hresp : AtMostOnePerId (respond_to_mention env
              { st with store_reads := st.store_reads + 1 } m conv).1.store := by
            rcases hsc with hsame | ⟨rec, hrid, happ⟩
            · rw [hsame]; exact h
            · rw [happ]
              exact atMostOne_append st.store rec h (by rw [hrid]; exact hcnt)
          rcases hcall : respond_to_mention env
              { st with store_reads := st.store_reads + 1 } m conv with ⟨st2, r⟩
          rw [hcall] at hresp
          cases r with
          | error e => exact hresp
          | ok v => exact ih st2 hresp
      · rw [if_neg hid]
        exact ih st h

/-- With a non-empty fetch, the run's final state is the final state of the
loop, started after `mentions_found` is set to the full fetched count, over
exactly the first `tweet_response_limit` mentions in fetched order. -/
theorem respond_to_mentions_state (env : Env) (st : BotState)
    (h : ¬ env.mentions.isEmpty = true) :
    (respond_to_mentions env st).1 =
      (process_mentions env { st with mentions_found := env.mentions.length }
        (env.mentions.take st.tweet_response_limit)).1 := by
  unfold respond_to_mentions
  rw [if_neg h]
  dsimp only
  rcases hp : process_mentions env { st with mentions_found := env.mentions.length }
      (env.mentions.take st.tweet_response_limit) with ⟨st1, r⟩
  cases r with
  | error e => rfl
  | ok v => rfl

/-- A full run preserves the at-most-one-row-per-id invariant. -/
theorem respond_to_mentions_preserves_atMostOne (env : Env) (st : BotState)
    (h : AtMostOnePerId st.store) :
    AtMostOnePerId (respond_to_mentions env st).1.store := by
  by_cases he : env.mentions.isEmpty = true
  · unfold respond_to_mentions
    rw [if_pos he]
    exact h
  · rw [respond_to_mentions_state env st he]
    exact process_mentions_preserves_atMostOne env _ _ h

/-! ## Claim C1 — root-mention handling -/

/-- A single mention that is its own conversation root (id 5, conversation
id 5), an empty table, and collaborators that would happily generate and
post a reply. -/
def rootEnv : Env :=
  { mentions := [{ id := 5, conversation_id := some 5, created_at := 0 }]
    getTweet := fun cid => if cid = 5 then some { id := 5, text := "root post" } else none
    llm := fun _ => Except.ok "generated reply"
    create_tweet := fun _ _ => Except.ok 99
    insert_ok := true
    now := 0 }

/-- C1 counterexample: on a mention whose resolved conversation tweet id
equals its own id (and no ReplyRecord anywhere), the pipeline posts
nothing, generates nothing and logs nothing — the claim says a reply is
generated and posted for it. -/
theorem c1_root_mention_not_replied :
    (respond_to_mentions rootEnv (TwitterBot.init [])).1.posts = [] ∧
    (respond_to_mentions rootEnv (TwitterBot.init [])).1.mentions_replied = 0 ∧
    (respond_to_mentions rootEnv (TwitterBot.init [])).1.llm_calls = 0 ∧
    (respond_to_mentions rootEnv (TwitterBot.init [])).1.store = [] ∧
    (respond_to_mentions rootEnv (TwitterBot.init [])).2 = Except.ok (some true) :=
  ⟨rfl, rfl, rfl, rfl, rfl⟩

/-- C1 (amended): a mention whose resolved conversation tweet id equals its
own id is *filtered out*: the `conversation_tweet.id != mention.id`
conjunct is false, so the dedup check is skipped (short-circuit) and no
reply is generated or posted for it, regardless of any existing
ReplyRecord; the loop continues with the remaining mentions from an
unchanged state. -/
theorem c1_root_mention_filtered_out (env : Env) (st : BotState) (m : Mention)
    (conv : Tweet) (rest : List Mention)
    (hres : get_mention_conversation_tweet env m = some conv)
    (heq : conv.id = m.id) :
    process_mentions env st (m :: rest) = process_mentions env st rest := by
  rw [process_mentions]
  rw [hres]
  dsimp only
  rw [if_neg (by simp [heq])]

theorem c1_root_mention_filtered_out_witness :
    process_mentions rootEnv (TwitterBot.init [])
        [{ id := 5, conversation_id := some 5, created_at := 0 }] =
      process_mentions rootEnv (TwitterBot.init []) [] :=
  c1_root_mention_filtered_out rootEnv (TwitterBot.init [])
    { id := 5, conversation_id := some 5, created_at := 0 }
    { id := 5, text := "root post" } [] rfl rfl

/-! ## Claim C2 — idempotence for already-answered conversations -/

/-- A table that already holds the one ReplyRecord for conversation tweet
id 7. -/
def c2Store : List ReplyRecord :=
  [{ mentioned_conversation_tweet_id := "7"
     mentioned_conversation_tweet_text := "old topic"
     tweet_response_id := 50
     tweet_response_text := "old reply"
     tweet_response_created_at := 1
     mentioned_at := 0 }]

/-- One mention (id 10) resolving to the distinct conversation tweet 7,
with collaborators that would happily generate and post. -/
def c2Env : Env :=
  { mentions := [{ id := 10, conversation_id := some 7, created_at := 3 }]
    getTweet := fun cid => if cid = 7 then some { id := 7, text := "old topic" } else none
    llm := fun _ => Except.ok "new reply"
    create_tweet := fun _ _ => Except.ok 51
    insert_ok := true
    now := 4 }

/-- C2: a run on a mention resolving to conversation tweet `conv` with
`conv.id ≠ mention.id` whose id already has a ReplyRecord posts no reply,
leaves the table unchanged (hence appends no second record for that id)
and does not touch `mentions_replied`; moreover every run preserves the
at-most-one-record-per-id invariant. -/
theorem c2_idempotent (env : Env) (st : BotState) (m : Mention) (conv : Tweet)
    (henv : env.mentions = [m])
    (hres : get_mention_conversation_tweet env m = some conv)
    (hne : conv.id ≠ m.id)
    (hrec : hasRecord st.store conv.id = true) :
    (respond_to_mentions env st).1.posts = st.posts ∧
    (respond_to_mentions env st).1.store = st.store ∧
    (respond_to_mentions env st).1.mentions_replied = st.mentions_replied ∧
    (∀ (env2 : Env) (st2 : BotState), AtMostOnePerId st2.store →
      AtMostOnePerId (respond_to_mentions env2 st2).1.store) := by
  have hnonempty : ¬ env.mentions.isEmpty = true := by rw [henv]; simp
  have hstate := respond_to_mentions_state env st hnonempty
  rw [henv] at hstate
  have key : ∀ (st0 : BotState) (k : Nat), hasRecord st0.store conv.id = true →
      (process_mentions env st0 (List.take k [m])).1.posts = st0.posts ∧
      (process_mentions env st0 (List.take k [m])).1.store = st0.store ∧
      (process_mentions env st0 (List.take k [m])).1.mentions_replied = st0.mentions_replied := by
    intro st0 k hr
    cases k with
    | zero => exact ⟨rfl, rfl, rfl⟩
    | succ n =>
      simp only [List.take_succ_cons, List.take_nil]
      rw [process_mentions]
      rw [hres]
      dsimp only
      rw [if_pos hne]
      simp only [check_already_responded, hr]
      exact ⟨rfl, rfl, rfl⟩
  obtain ⟨hp, hs, hr2⟩ :=
    key { st with mentions_found := ([m] : List Mention).length } st.tweet_response_limit hrec
  exact ⟨by rw [hstate]; exact hp,
         by rw [hstate]; exact hs,
         by rw [hstate]; exact hr2,
         fun env2 st2 h2 => respond_to_mentions_preserves_atMostOne env2 st2 h2⟩

theorem c2_idempotent_witness :
    (respond_to_mentions c2Env (TwitterBot.init c2Store)).1.posts = (TwitterBot.init c2Store).posts ∧
    (respond_to_mentions c2Env (TwitterBot.init c2Store)).1.store = (TwitterBot.init c2Store).store ∧
    (respond_to_mentions c2Env (TwitterBot.init c2Store)).1.mentions_replied =
      (TwitterBot.init c2Store).mentions_replied ∧
    (∀ (env2 : Env) (st2 : BotState), AtMostOnePerId st2.store →
      AtMostOnePerId (respond_to_mentions env2 st2).1.store) :=
  c2_idempotent c2Env (TwitterBot.init c2Store)
    { id := 10, conversation_id := some 7, created_at := 3 }
    { id := 7, text := "old topic" }
    rfl rfl (by decide) (by decide)

/-! ## Claim C3 — mention with no conversation id -/

/-- Three mentions; the second has no `conversation_id`.  All collaborators
behave: the first mention can be resolved, generated for and posted. -/
def c3Env : Env :=
  { mentions := [{ id := 1, conversation_id := some 100, created_at := 0 },
                 { id := 2, conversation_id := none, created_at := 0 },
                 { id := 3, conversation_id := some 300, created_at := 0 }]
    getTweet := fun cid =>
      if cid = 100 then some { id := 100, text := "first topic" }
      else if cid = 300 then some { id := 300, text := "third topic" } else none
    llm := fun _ => Except.ok "reply text"
    create_tweet := fun _ _ => Except.ok 77
    insert_ok := true
    now := 0 }

/-- C3 (code bug, evaluated at the failing input): on a mention whose
conversation resolution yields `None` (here mention 2 of 3, with
`conversation_id` absent), line 157 of the source evaluates
`mentioned_conversation_tweet.id` on `None`, so the run raises
`AttributeError` and aborts instead of skipping the mention silently; the
remaining mention 3 is never processed (exactly one post was made, for
mention 1). -/
theorem c3_unresolvable_mention_aborts_run :
    (respond_to_mentions c3Env (TwitterBot.init [])).2 = Except.error "AttributeError" ∧
    (respond_to_mentions c3Env (TwitterBot.init [])).1.posts = [("reply text", 1)] ∧
    (respond_to_mentions c3Env (TwitterBot.init [])).1.mentions_replied = 1 :=
  ⟨rfl, rfl, rfl⟩

/-! ## Claim C4 — posting failure is isolated to the mention -/

/-- One eligible mention whose posting call raises. -/
def c4Env : Env :=
  { mentions := [{ id := 10, conversation_id := some 7, created_at := 0 }]
    getTweet := fun cid => if cid = 7 then some { id := 7, text := "topic" } else none
    llm := fun _ => Except.ok "reply"
    create_tweet := fun _ _ => Except.error "TweepyError"
    insert_ok := true
    now := 0 }

/-- C4: when the posting call raises for an eligible mention, the loop
increments `mentions_replied_errors` by exactly one, leaves
`mentions_replied`, the table and the posts untouched for that mention,
and continues with the remaining mentions of the run. -/
theorem c4_post_failure_isolated (env : Env) (st : BotState) (m : Mention)
    (conv : Tweet) (rest : List Mention) (t : String) (e : PyExc)
    (hres : get_mention_conversation_tweet env m = some conv)
    (hne : conv.id ≠ m.id)
    (hrec : hasRecord st.store conv.id = false)
    (hllm : env.llm conv.text = Except.ok t)
    (hpost : env.create_tweet t m.id = Except.error e) :
    process_mentions env st (m :: rest) =
      process_mentions env
        { st with
            mentions_replied_errors := st.mentions_replied_errors + 1
            store_reads := st.store_reads + 1
            llm_calls := st.llm_calls + 1 } rest := by
  have hr : respond_to_mention env { st with store_reads := st.store_reads + 1 } m conv =
      ({ st with
          mentions_replied_errors := st.mentions_replied_errors + 1
          store_reads := st.store_reads + 1
          llm_calls := st.llm_calls + 1 }, Except.ok none) := by
    unfold respond_to_mention generate_response
    rw [hllm]
    dsimp only
    rw [hpost]
  rw [process_mentions]
  rw [hres]
  dsimp only
  rw [if_pos hne]
  simp only [check_already_responded, hrec]
  rw [hr]

theorem c4_post_failure_isolated_witness :
    process_mentions c4Env (TwitterBot.init [])
        [{ id := 10, conversation_id := some 7, created_at := 0 }] =
      process_mentions c4Env
        { TwitterBot.init [] with
            mentions_replied_errors := (TwitterBot.init []).mentions_replied_errors + 1
            store_reads := (TwitterBot.init []).store_reads + 1
            llm_calls := (TwitterBot.init []).llm_calls + 1 } [] :=
  c4_post_failure_isolated c4Env (TwitterBot.init [])
    { id := 10, conversation_id := some 7, created_at := 0 }
    { id := 7, text := "topic" } [] "reply" "TweepyError"
    rfl (by decide) rfl rfl rfl

/-! ## Claim C5 — a language-model failure propagates uncaught -/

/-- Two mentions, both resolvable and eligible; the language model raises
on every input. -/
def c5Env : Env :=
  { mentions := [{ id := 10, conversation_id := some 7, created_at := 0 },
                 { id := 11, conversation_id := some 8, created_at := 0 }]
    getTweet := fun cid =>
      if cid = 7 then some { id := 7, text := "topic" }
      else if cid = 8 then some { id := 8, text := "other topic" } else none
    llm := fun _ => Except.error "GeminiError"
    create_tweet := fun _ _ => Except.ok 1
    insert_ok := true
    now := 0 }

/-- C5: when the language model raises on the first eligible mention, the
exception leaves `generate_response` unhandled, is not caught in
`respond_to_mention` (which has no `try` around generation), and
propagates out of the run to its caller: `mentions_replied_errors` is not
incremented and the remaining mentions of the run are never processed. -/
theorem c5_generation_failure_propagates (env : Env) (st : BotState)
    (m : Mention) (rest : List Mention) (conv : Tweet) (e : PyExc)
    (henv : env.mentions = m :: rest)
    (hlim : 1 ≤ st.tweet_response_limit)
    (hres : get_mention_conversation_tweet env m = some conv)
    (hne : conv.id ≠ m.id)
    (hrec : hasRecord st.store conv.id = false)
    (hllm : env.llm conv.text = Except.error e) :
    (∀ st2 : BotState, generate_response env st2 conv.text =
      ({ st2 with llm_calls := st2.llm_calls + 1 }, Except.error e)) ∧
    respond_to_mentions env st =
      ({ st with
          mentions_found := (m :: rest).length
          store_reads := st.store_reads + 1
          llm_calls := st.llm_calls + 1 }, Except.error e) := by
  constructor
  · intro st2
    unfold generate_response
    rw [hllm]
  · have hr : respond_to_mention env
        { st with
            mentions_found := (m :: rest).length
            store_reads := st.store_reads + 1 } m conv =
        ({ st with
            mentions_found := (m :: rest).length
            store_reads := st.store_reads + 1
            llm_calls := st.llm_calls + 1 }, Except.error e) := by
      unfold respond_to_mention generate_response
      rw [hllm]
    obtain ⟨k, hk⟩ : ∃ k, st.tweet_response_limit = k + 1 :=
      ⟨st.tweet_response_limit - 1, by omega⟩
    unfold respond_to_mentions
    rw [henv]
    rw [if_neg (by simp)]
    dsimp only
    rw [hk, List.take_succ_cons]
    rw [process_mentions]
    rw [hres]
    dsimp only
    rw [if_pos hne]
    simp only [check_already_responded, hrec]
    rw [← hk]
    rw [hr]

theorem c5_generation_failure_propagates_witness :
    (∀ st2 : BotState, generate_response c5Env st2 "topic" =
      ({ st2 with llm_calls := st2.llm_calls + 1 }, Except.error "GeminiError")) ∧
    respond_to_mentions c5Env (TwitterBot.init []) =
      ({ TwitterBot.init [] with
          mentions_found := ([{ id := 10, conversation_id := some 7, created_at := 0 },
                              { id := 11, conversation_id := some 8, created_at := 0 }] : List Mention).length
          store_reads := (TwitterBot.init []).store_reads + 1
          llm_calls := (TwitterBot.init []).llm_calls + 1 }, Except.error "GeminiError") :=
  c5_generation_failure_propagates c5Env (TwitterBot.init [])
    { id := 10, conversation_id := some 7, created_at := 0 }
    [{ id := 11, conversation_id := some 8, created_at := 0 }]
    { id := 7, text := "topic" } "GeminiError"
    rfl (by decide) rfl (by decide) rfl rfl

/-! ## Claim C6 — cap enforcement and mentions_found -/

/-- Fifty fetched mentions (each its own conversation root, so each is
skipped harmlessly), mirroring the spec's 50-vs-35 example. -/
def c6Env : Env :=
  { mentions := List.replicate 50 { id := 5, conversation_id := some 5, created_at := 0 }
    getTweet := fun cid => if cid = 5 then some { id := 5, text := "root post" } else none
    llm := fun _ => Except.ok "generated reply"
    create_tweet := fun _ _ => Except.ok 99
    insert_ok := true
    now := 0 }

/-- C6: with a non-empty fetch of N mentions, `mentions_found` is set to N
(the count before truncation) and survives to the end of the run, the loop
runs over exactly the first `tweet_response_limit` mentions in fetched
order, and `TwitterBot.__init__` fixes that limit at 35, so at most 35
mentions are processed. -/
theorem c6_cap_enforcement (env : Env) (st : BotState)
    (h : ¬ env.mentions.isEmpty = true) :
    (respond_to_mentions env st).1 =
      (process_mentions env { st with mentions_found := env.mentions.length }
        (env.mentions.take st.tweet_response_limit)).1 ∧
    (respond_to_mentions env st).1.mentions_found = env.mentions.length ∧
    (TwitterBot.init st.store).tweet_response_limit = 35 ∧
    (env.mentions.take (TwitterBot.init st.store).tweet_response_limit).length ≤ 35 := by
  have hstate := respond_to_mentions_state env st h
  refine ⟨hstate, ?_, rfl, ?_⟩
  · rw [hstate]
    exact (process_mentions_effects env (env.mentions.take st.tweet_response_limit)
      { st with mentions_found := env.mentions.length }).1
  · rw [List.length_take]
    exact min_le_left _ _

theorem c6_cap_enforcement_witness :
    (respond_to_mentions c6Env (TwitterBot.init [])).1 =
      (process_mentions c6Env
        { TwitterBot.init [] with mentions_found := c6Env.mentions.length }
        (c6Env.mentions.take (TwitterBot.init []).tweet_response_limit)).1 ∧
    (respond_to_mentions c6Env (TwitterBot.init [])).1.mentions_found = c6Env.mentions.length ∧
    (TwitterBot.init (TwitterBot.init []).store).tweet_response_limit = 35 ∧
    (c6Env.mentions.take (TwitterBot.init (TwitterBot.init []).store).tweet_response_limit).length ≤ 35 :=
  c6_cap_enforcement c6Env (TwitterBot.init []) (by simp [c6Env])

/-! ## Claim C7 — empty window -/

/-- A run in which the fetch comes back empty, over a non-empty table. -/
def c7Env : Env :=
  { mentions := []
    getTweet := fun _ => none
    llm := fun _ => Except.error "unused"
    create_tweet := fun _ _ => Except.error "unused"
    insert_ok := true
    now := 0 }

def c7Store : List ReplyRecord :=
  [{ mentioned_conversation_tweet_id := "9"
     mentioned_conversation_tweet_text := "earlier topic"
     tweet_response_id := 40
     tweet_response_text := "earlier reply"
     tweet_response_created_at := 0
     mentioned_at := 0 }]

/-- C7: a run that fetches no mentions returns immediately with the fresh
instance's state unchanged — all three counters zero, no table scan
(`store_reads` stays 0), no language-model call (`llm_calls` stays 0), no
post, and the table untouched. -/
theorem c7_empty_window (env : Env) (s : List ReplyRecord)
    (h : env.mentions = []) :
    respond_to_mentions env (TwitterBot.init s) = (TwitterBot.init s, Except.ok none) ∧
    (TwitterBot.init s).mentions_found = 0 ∧
    (TwitterBot.init s).mentions_replied = 0 ∧
    (TwitterBot.init s).mentions_replied_errors = 0 ∧
    (TwitterBot.init s).store_reads = 0 ∧
    (TwitterBot.init s).llm_calls = 0 ∧
    (TwitterBot.init s).posts = [] ∧
    (TwitterBot.init s).store = s := by
  refine ⟨?_, rfl, rfl, rfl, rfl, rfl, rfl, rfl⟩
  unfold respond_to_mentions
  rw [h]
  rfl

theorem c7_empty_window_witness :
    respond_to_mentions c7Env (TwitterBot.init c7Store) =
      (TwitterBot.init c7Store, Except.ok none) ∧
    (TwitterBot.init c7Store).mentions_found = 0 ∧
    (TwitterBot.init c7Store).mentions_replied = 0 ∧
    (TwitterBot.init c7Store).mentions_replied_errors = 0 ∧
    (TwitterBot.init c7Store).store_reads = 0 ∧
    (TwitterBot.init c7Store).llm_calls = 0 ∧
    (TwitterBot.init c7Store).posts = [] ∧
    (TwitterBot.init c7Store).store = c7Store :=
  c7_empty_window c7Env c7Store rfl

/-! ## Claim C8 — the counters are not reset at the start of a run -/

/-- One eligible mention that is successfully replied to and logged. -/
def c8Env : Env :=
  { mentions := [{ id := 10, conversation_id := some 7, created_at := 0 }]
    getTweet := fun cid => if cid = 7 then some { id := 7, text := "topic" } else none
    llm := fun _ => Except.ok "fresh reply"
    create_tweet := fun _ _ => Except.ok 12
    insert_ok := true
    now := 0 }

/-- A bot instance whose counters carry non-zero values from earlier runs
of the same instance. -/
def c8St : BotState :=
  { TwitterBot.init [] with
      mentions_found := 9
      mentions_replied := 5
      mentions_replied_errors := 2 }

/-- C8 counterexample: starting a run with `mentions_replied = 5` and
`mentions_replied_errors = 2`, one successful reply ends the run with
`mentions_replied = 6` and `mentions_replied_errors = 2` — had the three
counters been reset to zero at the start of the run, they would read 1 and
0.  `respond_to_mentions` never resets them. -/
theorem c8_counters_not_reset :
    (respond_to_mentions c8Env c8St).1.mentions_replied = 6 ∧
    (respond_to_mentions c8Env c8St).1.mentions_replied_errors = 2 ∧
    ¬ ((respond_to_mentions c8Env c8St).1.mentions_replied = 1 ∧
       (respond_to_mentions c8Env c8St).1.mentions_replied_errors = 0) :=
  ⟨rfl, rfl, by decide⟩

/-- C8 (amended): the counters are *not* reset at the start of
`respond_to_mentions`: `mentions_replied` and `mentions_replied_errors`
only ever grow across runs of the same instance (`mentions_found` is
overwritten when mentions are found).  End-of-run stats reflect a single
run only because each scheduled job builds a fresh `TwitterBot`, whose
`__init__` zeroes all three counters. -/
theorem c8_counters_accumulate (env : Env) (st : BotState) :
    st.mentions_replied ≤ (respond_to_mentions env st).1.mentions_replied ∧
    st.mentions_replied_errors ≤ (respond_to_mentions env st).1.mentions_replied_errors ∧
    (TwitterBot.init st.store).mentions_found = 0 ∧
    (TwitterBot.init st.store).mentions_replied = 0 ∧
    (TwitterBot.init st.store).mentions_replied_errors = 0 := by
  refine ⟨?_, ?_, rfl, rfl, rfl⟩
  · by_cases he : env.mentions.isEmpty = true
    · unfold respond_to_mentions
      rw [if_pos he]
    · rw [respond_to_mentions_state env st he]
      exact (process_mentions_effects env (env.mentions.take st.tweet_response_limit)
        { st with mentions_found := env.mentions.length }).2.2.1
  · by_cases he : env.mentions.isEmpty = true
    · unfold respond_to_mentions
      rw [if_pos he]
    · rw [respond_to_mentions_state env st he]
      exact (process_mentions_effects env (env.mentions.take st.tweet_response_limit)
        { st with mentions_found := env.mentions.length }).2.2.2

/-! ## Claim C9 — post-then-log is not atomic -/

/-- One eligible mention; posting succeeds but the Airtable insert
raises. -/
def c9Env : Env :=
  { mentions := [{ id := 10, conversation_id := some 7, created_at := 0 }]
    getTweet := fun cid => if cid = 7 then some { id := 7, text := "topic" } else none
    llm := fun _ => Except.ok "posted reply"
    create_tweet := fun _ _ => Except.ok 13
    insert_ok := false
    now := 0 }

/-- C9: the Airtable append happens after, and outside the `try` of, the
successful posting call.  When posting succeeds and the insert raises,
`mentions_replied` has already been incremented and the reply was posted,
yet no ReplyRecord exists for it, and the exception propagates out of the
run; the conversation id still has no record, so a future run would find
it eligible again. -/
theorem c9_post_then_log_not_atomic (env : Env) (st : BotState) (m : Mention)
    (rest : List Mention) (conv : Tweet) (t : String) (rid : Nat)
    (henv : env.mentions = m :: rest)
    (hlim : 1 ≤ st.tweet_response_limit)
    (hres : get_mention_conversation_tweet env m = some conv)
    (hne : conv.id ≠ m.id)
    (hrec : hasRecord st.store conv.id = false)
    (hllm : env.llm conv.text = Except.ok t)
    (hpost : env.create_tweet t m.id = Except.ok rid)
    (hins : env.insert_ok = false) :
    respond_to_mentions env st =
      ({ st with
          mentions_found := (m :: rest).length
          store_reads := st.store_reads + 1
          llm_calls := st.llm_calls + 1
          mentions_replied := st.mentions_replied + 1
          posts := st.posts ++ [(t, m.id)] },
       Except.error "AirtableInsertError") ∧
    (respond_to_mentions env st).1.store = st.store ∧
    hasRecord (respond_to_mentions env st).1.store conv.id = false := by
  have hr : respond_to_mention env
      { st with
          mentions_found := (m :: rest).length
          store_reads := st.store_reads + 1 } m conv =
      ({ st with
          mentions_found := (m :: rest).length
          store_reads := st.store_reads + 1
          llm_calls := st.llm_calls + 1
          mentions_replied := st.mentions_replied + 1
          posts := st.posts ++ [(t, m.id)] },
       Except.error "AirtableInsertError") := by
    unfold respond_to_mention generate_response
    rw [hllm]
    dsimp only
    rw [hpost]
    dsimp only
    rw [hins]
    rfl
  have hmain : respond_to_mentions env st =
      ({ st with
          mentions_found := (m :: rest).length
          store_reads := st.store_reads + 1
          llm_calls := st.llm_calls + 1
          mentions_replied := st.mentions_replied + 1
          posts := st.posts ++ [(t, m.id)] },
       Except.error "AirtableInsertError") := by
    obtain ⟨k, hk⟩ : ∃ k, st.tweet_response_limit = k + 1 :=
      ⟨st.tweet_response_limit - 1, by omega⟩
    unfold respond_to_mentions
    rw [henv]
    rw [if_neg (by simp)]
    dsimp only
    rw [hk, List.take_succ_cons]
    rw [process_mentions]
    rw [hres]
    dsimp only
    rw [if_pos hne]
    simp only [check_already_responded, hrec]
    rw [← hk]
    rw [hr]
  exact ⟨hmain, by rw [hmain], by rw [hmain]; exact hrec⟩

theorem c9_post_then_log_not_atomic_witness :
    respond_to_mentions c9Env (TwitterBot.init []) =
      ({ TwitterBot.init [] with
          mentions_found := ([{ id := 10, conversation_id := some 7, created_at := 0 }] : List Mention).length
          store_reads := (TwitterBot.init []).store_reads + 1
          llm_calls := (TwitterBot.init []).llm_calls + 1
          mentions_replied := (TwitterBot.init []).mentions_replied + 1
          posts := (TwitterBot.init []).posts ++ [("posted reply", 10)] },
       Except.error "AirtableInsertError") ∧
    (respond_to_mentions c9Env (TwitterBot.init [])).1.store = (TwitterBot.init []).store ∧
    hasRecord (respond_to_mentions c9Env (TwitterBot.init [])).1.store 7 = false :=
  c9_post_then_log_not_atomic c9Env (TwitterBot.init [])
    { id := 10, conversation_id := some 7, created_at := 0 } []
    { id := 7, text := "topic" } "posted reply" 13
    rfl (by decide) rfl (by decide) rfl rfl rfl rfl

/-! ## Claim C10 — a fresh bot per scheduled job -/

/-- C10: each scheduled job runs on a freshly constructed `TwitterBot`:
only the external Airtable table carries over from the previous instance,
and the fresh instance's counters are zero — so counter values never leak
from one scheduled run into the next, whatever the previous instance's
counters were. -/
theorem c10_fresh_bot_per_job (prev : BotState) (env : Env) :
    job prev env = respond_to_mentions env (TwitterBot.init prev.store) ∧
    (TwitterBot.init prev.store).mentions_found = 0 ∧
    (TwitterBot.init prev.store).mentions_replied = 0 ∧
    (TwitterBot.init prev.store).mentions_replied_errors = 0 :=
  ⟨rfl, rfl, rfl, rfl⟩
